import Mathlib

/-!
Verification of `src/services/image_to_video.py` (`process_image_to_video`).

Shallow embedding conventions:
* Python numbers that the code treats exactly (int constants, arithmetic on
  the request parameters) are modelled as `ℕ`/`ℤ`/`ℚ`; `int(x)` on a float is
  truncation toward zero, modelled by `pyInt` on `ℚ`.
* Python f-string interpolation of an `int` matches Lean `toString` on
  `ℤ`/`ℕ` digit for digit.  Interpolation of a float (`str(x)`) is modelled
  by an arbitrary rendering function `pyStr : ℚ → String` passed as a
  parameter, since the claims under study do not depend on the decimal
  rendering of floats.
* The I/O around the core (download, PIL image open, the ffmpeg subprocess,
  `os.remove`) is modelled by an `Env` record of collaborator outcomes and a
  trace of emitted `Event`s, with the control flow of the `try` block
  translated statement by statement.
-/

namespace ImageToVideo

/-- Python `int(q)` for a real (here: rational) `q`: truncation toward zero. -/
def pyInt (q : ℚ) : ℤ := if 0 ≤ q then q.floor else -((-q).floor)

/-- The function `Rat.floor` is the `⌊⌋` of the `FloorRing ℚ` instance. -/
theorem rat_floor_eq_int_floor (q : ℚ) : q.floor = ⌊q⌋ := rfl

/-! ### Effect control constants (lines 32-48 of the source) -/

def SHAKE_INTENSITY : ℕ := 8
def SHAKE_FREQUENCY_X : ℚ := 15/100
def SHAKE_FREQUENCY_Y : ℚ := 18/100
def SHAKE_BORDER : ℕ := 20
def MOVEMENT_SPEED_MULTIPLIER : ℚ := 1
def ENABLE_LINEAR_PANS : Bool := true
def ENABLE_DIAGONAL_PANS : Bool := true
def UPSCALE_QUALITY_BOOST : Bool := true
def CUSTOM_SCALE_MULTIPLIER : ℚ := 1

/-! ### Orientation branch (lines 136-153) -/

/-- Lines 136-153: pick `(scale_dims, output_dims)` from the image
orientation.  `width > height` is the landscape branch; otherwise (including
exactly square images) the portrait branch. -/
def scale_output_dims (width height : ℕ) : String × String :=
  if width > height then
    (if UPSCALE_QUALITY_BOOST then
        toString (pyInt (7680 * CUSTOM_SCALE_MULTIPLIER)) ++ ":" ++
          toString (pyInt (4320 * CUSTOM_SCALE_MULTIPLIER))
      else "7680:4320",
     "1920x1080")
  else
    (if UPSCALE_QUALITY_BOOST then
        toString (pyInt (4320 * CUSTOM_SCALE_MULTIPLIER)) ++ ":" ++
          toString (pyInt (7680 * CUSTOM_SCALE_MULTIPLIER))
      else "4320:7680",
     "1080x1920")

/-! ### Frame count and zoom factor (lines 156-157) -/

/-- Line 156: `total_frames = int(length * frame_rate)`. -/
def total_frames (length frame_rate : ℚ) : ℤ := pyInt (length * frame_rate)

/-- Line 157: `zoom_factor = 1 + (zoom_speed * length)`. -/
def zoom_factor (zoom_speed length : ℚ) : ℚ := 1 + zoom_speed * length

/-! ### Movement pattern catalog (`get_movement_pattern`, lines 53-118)

The Python function reads the toggles `ENABLE_LINEAR_PANS`,
`ENABLE_DIAGONAL_PANS` and `MOVEMENT_SPEED_MULTIPLIER` from the enclosing
scope; the embedding takes them as explicit arguments (instantiated with the
constants above where `process` calls the catalog), together with the float
rendering `pyStr`. -/

structure Pattern where
  x : String
  y : String
  name : String
deriving DecidableEq, Repr

/-- Line 57: `speed_factor = f"*{M}" if M != 1.0 else ""`. -/
def speed_factor (mult : ℚ) (pyStr : ℚ → String) : String :=
  if mult ≠ 1 then "*" ++ pyStr mult else ""

/-- Lines 61-82: the four linear patterns, in insertion order. -/
def linear_patterns (tf : ℤ) (sf : String) : List (String × Pattern) :=
  [("left_to_right",
    ⟨"(iw-iw/zoom)*on/" ++ toString tf ++ sf, "ih/2-(ih/zoom/2)",
     "Left to Right Pan"⟩),
   ("right_to_left",
    ⟨"(iw-iw/zoom)*(1-on/" ++ toString tf ++ sf ++ ")", "ih/2-(ih/zoom/2)",
     "Right to Left Pan"⟩),
   ("top_to_bottom",
    ⟨"iw/2-(iw/zoom/2)", "(ih-ih/zoom)*on/" ++ toString tf ++ sf,
     "Top to Bottom Pan"⟩),
   ("bottom_to_top",
    ⟨"iw/2-(iw/zoom/2)", "(ih-ih/zoom)*(1-on/" ++ toString tf ++ sf ++ ")",
     "Bottom to Top Pan"⟩)]

/-- Lines 86-107: the four diagonal patterns, in insertion order. -/
def diagonal_patterns (tf : ℤ) (sf : String) : List (String × Pattern) :=
  [("diagonal_up",
    ⟨"(iw-iw/zoom)*on/" ++ toString tf ++ sf,
     "(ih-ih/zoom)*(1-on/" ++ toString tf ++ sf ++ ")",
     "Diagonal Up (Bottom-Left to Top-Right)"⟩),
   ("diagonal_down",
    ⟨"(iw-iw/zoom)*on/" ++ toString tf ++ sf,
     "(ih-ih/zoom)*on/" ++ toString tf ++ sf,
     "Diagonal Down (Top-Left to Bottom-Right)"⟩),
   ("diagonal_up_reverse",
    ⟨"(iw-iw/zoom)*(1-on/" ++ toString tf ++ sf ++ ")",
     "(ih-ih/zoom)*on/" ++ toString tf ++ sf,
     "Diagonal Up Reverse (Top-Right to Bottom-Left)"⟩),
   ("diagonal_down_reverse",
    ⟨"(iw-iw/zoom)*(1-on/" ++ toString tf ++ sf ++ ")",
     "(ih-ih/zoom)*(1-on/" ++ toString tf ++ sf ++ ")",
     "Diagonal Down Reverse (Bottom-Right to Top-Left)"⟩)]

/-- Lines 111-115: the fallback pattern installed when both families are
disabled; its `x` uses the raw ratio with no speed factor. -/
def fallback_pattern (tf : ℤ) : Pattern :=
  ⟨"(iw-iw/zoom)*on/" ++ toString tf, "ih/2-(ih/zoom/2)",
   "Left to Right Pan (Fallback)"⟩

/-- Lines 56-115: the `patterns` dict built by `get_movement_pattern`,
as an insertion-ordered association list. -/
def get_movement_pattern_catalog (enableLinear enableDiagonal : Bool)
    (mult : ℚ) (pyStr : ℚ → String) (tf : ℤ) : List (String × Pattern) :=
  let sf := speed_factor mult pyStr
  let patterns :=
    (if enableLinear then linear_patterns tf sf else []) ++
    (if enableDiagonal then diagonal_patterns tf sf else [])
  if patterns = [] then [("left_to_right", fallback_pattern tf)] else patterns

/-- Lines 117-118: `random.choice(list(patterns.keys()))`, modelled with an
injected index `pick` reduced modulo the catalog size. -/
def choice (catalog : List (String × Pattern)) (pick : ℕ) : String × Pattern :=
  catalog.getD (pick % catalog.length) ("left_to_right", fallback_pattern 0)

/-! ### Shake filter and composed filter expression (lines 164-171, 185) -/

/-- Lines 164-171: `shake_filter` is the empty string unless the intensity is
strictly positive, in which case it is the crop-jitter stage.  The two
frequency constants are floats in the source; their rendered text is taken
as the arguments `fx`, `fy`. -/
def build_shake_filter (intensity border : ℕ) (fx fy : String) : String :=
  if intensity > 0 then
    ",crop=iw-" ++ toString (border * 2) ++ ":ih-" ++ toString (border * 2) ++
      ":" ++ toString border ++ "+" ++ toString intensity ++ "*sin(n*" ++ fx ++ ")" ++
      ":" ++ toString border ++ "+" ++ toString intensity ++ "*cos(n*" ++ fy ++ ")"
  else ""

/-- Line 185: the composed `video_filter` f-string.  `\x27` is the single
quote character. -/
def video_filter (scale_dims : String) (zoom_speed length : ℚ) (tf : ℤ)
    (zf : ℚ) (x_expr y_expr output_dims shake_filter : String)
    (frame_rate : ℚ) (pyStr : ℚ → String) : String :=
  "scale=" ++ scale_dims ++ ",zoompan=z=\x27min(1+(" ++ pyStr zoom_speed ++
    "*" ++ pyStr length ++ ")*on/" ++ toString tf ++ ", " ++ pyStr zf ++
    ")\x27:d=" ++ toString tf ++ ":x=\x27" ++ x_expr ++ "\x27:y=\x27" ++
    y_expr ++ "\x27:s=" ++ output_dims ++ shake_filter ++ ",fps=" ++
    pyStr frame_rate

/-- The scale stage of the composed expression. -/
def scale_stage (scale_dims : String) : String := "scale=" ++ scale_dims

/-- The zoompan stage of the composed expression: the zoom term is the
clamped linear ramp `min(1+(zoom_speed*length)*on/tf, zf)` and the duration
parameter is `d=tf`. -/
def zoompan_stage (zoom_speed length : ℚ) (tf : ℤ) (zf : ℚ)
    (x_expr y_expr output_dims : String) (pyStr : ℚ → String) : String :=
  "zoompan=z=\x27min(1+(" ++ pyStr zoom_speed ++ "*" ++ pyStr length ++
    ")*on/" ++ toString tf ++ ", " ++ pyStr zf ++ ")\x27:d=" ++ toString tf ++
    ":x=\x27" ++ x_expr ++ "\x27:y=\x27" ++ y_expr ++ "\x27:s=" ++ output_dims

/-- The frame-rate normalization stage of the composed expression. -/
def fps_stage (frame_rate : ℚ) (pyStr : ℚ → String) : String :=
  "fps=" ++ pyStr frame_rate

/-! ### The main processing logic (lines 122-210)

The collaborators (download, PIL, subprocess, `os.remove`) are modelled by
an `Env` of outcomes; `process` translates the `try` block statement by
statement, emitting a trace of the observable side effects. -/

inductive Event where
  | downloaded (path : String)
  | rendererInvoked (cmd : List String)
  | removed (path : String)
deriving DecidableEq, Repr

structure Env where
  storage : String
  download_ok : Bool
  image_path : String
  image_ok : Bool
  width : ℕ
  height : ℕ
  returncode : ℤ
deriving Repr

/-- Lines 122-210: the body of `process_image_to_video`.  Returns the
result (the output path, or the propagated exception as an error message)
together with the trace of emitted side effects. -/
def process (env : Env) (pyStr : ℚ → String)
    (length frame_rate zoom_speed : ℚ) (job_id : String) (pick : ℕ) :
    Except String String × List Event :=
  if env.download_ok = false then (Except.error "download failed", [])
  else
    let ev1 := [Event.downloaded env.image_path]
    if env.image_ok = false then (Except.error "cannot identify image", ev1)
    else
      let dims := scale_output_dims env.width env.height
      let output_path := env.storage ++ "/" ++ job_id ++ ".mp4"
      let tf := total_frames length frame_rate
      let zf := zoom_factor zoom_speed length
      let movement := (choice (get_movement_pattern_catalog ENABLE_LINEAR_PANS
        ENABLE_DIAGONAL_PANS MOVEMENT_SPEED_MULTIPLIER pyStr tf) pick).2
      let shake := build_shake_filter SHAKE_INTENSITY SHAKE_BORDER
        (pyStr SHAKE_FREQUENCY_X) (pyStr SHAKE_FREQUENCY_Y)
      let vf := video_filter dims.1 zoom_speed length tf zf movement.x
        movement.y dims.2 shake frame_rate pyStr
      let cmd := ["ffmpeg", "-framerate", pyStr frame_rate, "-loop", "1",
        "-i", env.image_path, "-vf", vf, "-c:v", "libx264", "-r",
        pyStr frame_rate, "-t", pyStr length, "-pix_fmt", "yuv420p",
        output_path]
      let ev2 := ev1 ++ [Event.rendererInvoked cmd]
      if env.returncode ≠ 0 then
        (Except.error "ffmpeg command failed", ev2)
      else
        (Except.ok output_path, ev2 ++ [Event.removed env.image_path])

instance : DecidableEq (Except String String)
  | Except.ok a, Except.ok b => decidable_of_iff (a = b) (by simp)
  | Except.ok _, Except.error _ => isFalse (by simp)
  | Except.error _, Except.ok _ => isFalse (by simp)
  | Except.error a, Except.error b => decidable_of_iff (a = b) (by simp)

/-- Holds (as `true`) iff the event is a renderer invocation. -/
def isRendererInvoke : Event → Bool
  | Event.rendererInvoked _ => true
  | _ => false

/-- Claim C2: for positive dimensions, `width > height` yields output
resolution 1920x1080 and `width ≤ height` (square included) yields
1080x1920; the square case takes the portrait branch. -/
theorem claim_C2_orientation (width height : ℕ) (hw : 0 < width) (hh : 0 < height) :
    (width > height → (scale_output_dims width height).2 = "1920x1080") ∧
    (width ≤ height → (scale_output_dims width height).2 = "1080x1920") ∧
    (width = height → (scale_output_dims width height).2 = "1080x1920") := by
  refine ⟨fun h => ?_, fun h => ?_, fun h => ?_⟩
  · simp [scale_output_dims, h]
  · simp [scale_output_dims, Nat.not_lt.mpr h]
  · simp [scale_output_dims, h]

/-- Witness for C2 at (1920,1080) and (1080,1080). -/
theorem claim_C2_orientation_witness :
    (scale_output_dims 1920 1080).2 = "1920x1080" ∧
    (scale_output_dims 1080 1080).2 = "1080x1920" :=
  ⟨(claim_C2_orientation 1920 1080 (by decide) (by decide)).1 (by decide),
   (claim_C2_orientation 1080 1080 (by decide) (by decide)).2.2 rfl⟩

/-- Claim C3: for positive duration and frame rate, the computed total frame
count is exactly `⌊duration * frame_rate⌋` (truncation of the fractional
part, not rounding). -/
theorem claim_C3_total_frames_floor (length frame_rate : ℚ)
    (h1 : 0 < length) (h2 : 0 < frame_rate) :
    total_frames length frame_rate = ⌊length * frame_rate⌋ := by
  unfold total_frames pyInt
  rw [if_pos (le_of_lt (mul_pos h1 h2)), rat_floor_eq_int_floor]

/-- Witness for C3: duration 2.1 s at 10 fps gives exactly 21 frames. -/
theorem claim_C3_total_frames_floor_witness :
    0 < (21/10 : ℚ) ∧ 0 < (10 : ℚ) ∧ total_frames (21/10) 10 = 21 :=
  ⟨by norm_num, by norm_num, by
    rw [claim_C3_total_frames_floor (21/10) 10 (by norm_num) (by norm_num)]
    norm_num⟩

/-- Claim C5: for every combination of the two feature toggles the catalog
contains at least one pattern, and with both toggles false it is the
singleton left-to-right fallback. -/
theorem claim_C5_catalog_nonempty (eL eD : Bool) (mult : ℚ)
    (pyStr : ℚ → String) (tf : ℤ) :
    1 ≤ (get_movement_pattern_catalog eL eD mult pyStr tf).length ∧
    (eL = false → eD = false →
      get_movement_pattern_catalog eL eD mult pyStr tf =
        [("left_to_right", fallback_pattern tf)]) := by
  cases eL <;> cases eD <;>
    simp [get_movement_pattern_catalog, linear_patterns, diagonal_patterns]

/-- Witness for C5: both-false gives the singleton fallback; both-true is
non-empty. -/
theorem claim_C5_catalog_nonempty_witness :
    get_movement_pattern_catalog false false 1 toString 120 =
      [("left_to_right", fallback_pattern 120)] ∧
    1 ≤ (get_movement_pattern_catalog true true 1 toString 120).length :=
  ⟨(claim_C5_catalog_nonempty false false 1 toString 120).2 rfl rfl,
   (claim_C5_catalog_nonempty true true 1 toString 120).1⟩

/-- Claim C6: the x-expression of the fallback pattern is the unscaled ratio
`(iw-iw/zoom)*on/tf`, while the enabled-path left-to-right pattern (the
first catalog entry whenever linear pans are enabled) appends the speed
factor `*mult`; for every `tf` and every `mult ≠ 1` the two x-expressions
differ. -/
theorem claim_C6_fallback_asymmetry (tf : ℤ) (eD : Bool) (mult : ℚ)
    (pyStr : ℚ → String) (h : mult ≠ 1) :
    (fallback_pattern tf).x = "(iw-iw/zoom)*on/" ++ toString tf ∧
    (get_movement_pattern_catalog true eD mult pyStr tf).head? =
      some ("left_to_right",
        ⟨(fallback_pattern tf).x ++ ("*" ++ pyStr mult), "ih/2-(ih/zoom/2)",
         "Left to Right Pan"⟩) ∧
    (fallback_pattern tf).x ++ ("*" ++ pyStr mult) ≠ (fallback_pattern tf).x := by
  refine ⟨rfl, ?_, ?_⟩
  · cases eD <;>
      simp [get_movement_pattern_catalog, linear_patterns, diagonal_patterns,
        speed_factor, h, fallback_pattern, String.append_assoc]
  · intro heq
    have hlen := congrArg String.length heq
    simp only [String.length_append] at hlen
    rw [show ("*" : String).length = 1 from rfl] at hlen
    omega

/-- Witness for C6 at `tf = 120`, `mult = 2`. -/
theorem claim_C6_fallback_asymmetry_witness :
    (2 : ℚ) ≠ 1 ∧
    (get_movement_pattern_catalog true true 2 toString 120).head? =
      some ("left_to_right",
        ⟨(fallback_pattern 120).x ++ ("*" ++ toString (2 : ℚ)),
         "ih/2-(ih/zoom/2)", "Left to Right Pan"⟩) :=
  ⟨by norm_num,
   (claim_C6_fallback_asymmetry 120 true 2 toString (by norm_num)).2.1⟩

/-- Claim C7: the composed filter expression carries a crop-jitter stage iff
the shake intensity is strictly positive; when present the stage crops
`2*border` pixels off each dimension with offsets
`border + intensity*sin(n*fx)` and `border + intensity*cos(n*fy)`; when the
intensity is 0 the stage is entirely absent from the composed expression. -/
theorem claim_C7_shake_stage_iff (intensity border : ℕ) (fx fy : String)
    (scale_dims : String) (zoom_speed length frame_rate : ℚ) (tf : ℤ)
    (zf : ℚ) (x_expr y_expr output_dims : String) (pyStr : ℚ → String) :
    (intensity = 0 → build_shake_filter intensity border fx fy = "") ∧
    (0 < intensity → build_shake_filter intensity border fx fy ≠ "") ∧
    (0 < intensity → build_shake_filter intensity border fx fy =
      ",crop=iw-" ++ toString (2 * border) ++ ":ih-" ++ toString (2 * border) ++
        ":" ++ (toString border ++ "+" ++ toString intensity ++ "*sin(n*" ++ fx ++ ")") ++
        ":" ++ (toString border ++ "+" ++ toString intensity ++ "*cos(n*" ++ fy ++ ")")) ∧
    (intensity = 0 →
      video_filter scale_dims zoom_speed length tf zf x_expr y_expr output_dims
          (build_shake_filter intensity border fx fy) frame_rate pyStr =
        scale_stage scale_dims ++ "," ++
          zoompan_stage zoom_speed length tf zf x_expr y_expr output_dims pyStr ++
          "," ++ fps_stage frame_rate pyStr) ∧
    (0 < intensity →
      video_filter scale_dims zoom_speed length tf zf x_expr y_expr output_dims
          (build_shake_filter intensity border fx fy) frame_rate pyStr =
        scale_stage scale_dims ++ "," ++
          zoompan_stage zoom_speed length tf zf x_expr y_expr output_dims pyStr ++
          build_shake_filter intensity border fx fy ++ "," ++
          fps_stage frame_rate pyStr) := by
  refine ⟨fun h0 => ?_, fun hpos => ?_, fun hpos => ?_, fun h0 => ?_, fun hpos => ?_⟩
  · simp [build_shake_filter, h0]
  · intro heq
    unfold build_shake_filter at heq
    rw [if_pos hpos] at heq
    have hlen := congrArg String.length heq
    simp only [String.length_append] at hlen
    rw [show (",crop=iw-" : String).length = 9 from rfl,
      show ("" : String).length = 0 from rfl] at hlen
    omega
  · simp only [build_shake_filter, if_pos hpos, Nat.mul_comm border 2,
      String.append_assoc]
  · simp only [build_shake_filter, h0, lt_irrefl, if_neg, Nat.lt_irrefl,
      gt_iff_lt, ite_false, video_filter, scale_stage, zoompan_stage,
      fps_stage, String.append_assoc, String.append_empty]
    rfl
  · simp only [video_filter, scale_stage, zoompan_stage, fps_stage,
      String.append_assoc]
    rfl

/-- Witness for C7 at the source constants (intensity 8, border 20,
frequencies 0.15/0.18), and at intensity 0. -/
theorem claim_C7_shake_stage_iff_witness :
    0 < (8 : ℕ) ∧
    build_shake_filter 8 20 "0.15" "0.18" =
      ",crop=iw-40:ih-40:20+8*sin(n*0.15):20+8*cos(n*0.18)" ∧
    build_shake_filter 0 20 "0.15" "0.18" = "" := by
  refine ⟨by decide, ?_, ?_⟩
  · rw [(claim_C7_shake_stage_iff 8 20 "0.15" "0.18" "7680:4320" (3/100) 4 30
      120 (112/100) "x" "y" "1920x1080" toString).2.2.1 (by decide)]
    decide
  · exact (claim_C7_shake_stage_iff 0 20 "0.15" "0.18" "7680:4320" (3/100) 4 30
      120 (112/100) "x" "y" "1920x1080" toString).1 rfl

/-- Claim C8: the composed filter expression has the fixed stage order
scale, then zoompan, then the (possibly empty) shake stage, then frame-rate
normalization; its zoom term is the clamped ramp
`min(1+(zoom_speed*length)*on/total_frames, zoom_factor)` and the zoompan
duration parameter `d` equals the same `total_frames`. -/
theorem claim_C8_filter_stage_order (scale_dims : String)
    (zoom_speed length frame_rate : ℚ)
    (x_expr y_expr output_dims shake : String) (pyStr : ℚ → String) :
    video_filter scale_dims zoom_speed length (total_frames length frame_rate)
        (zoom_factor zoom_speed length) x_expr y_expr output_dims shake
        frame_rate pyStr =
      scale_stage scale_dims ++ "," ++
        zoompan_stage zoom_speed length (total_frames length frame_rate)
          (1 + zoom_speed * length) x_expr y_expr output_dims pyStr ++
        shake ++ "," ++ fps_stage frame_rate pyStr ∧
    zoompan_stage zoom_speed length (total_frames length frame_rate)
        (1 + zoom_speed * length) x_expr y_expr output_dims pyStr =
      ("zoompan=z=\x27min(1+(" ++ pyStr zoom_speed ++ "*" ++ pyStr length ++
          ")*on/" ++ toString (total_frames length frame_rate) ++ ", " ++
          pyStr (1 + zoom_speed * length) ++ ")\x27") ++
        (":d=" ++ toString (total_frames length frame_rate)) ++
        (":x=\x27" ++ x_expr ++ "\x27") ++ (":y=\x27" ++ y_expr ++ "\x27") ++
        (":s=" ++ output_dims) := by
  constructor
  · simp only [video_filter, scale_stage, zoompan_stage, fps_stage,
      zoom_factor, String.append_assoc]
    rfl
  · simp only [zoompan_stage, String.append_assoc]
    rfl

/-- Claim C4: for non-negative zoom speed and positive duration the final
zoom factor is exactly `1 + zoom_speed * duration` (linear in time). -/
theorem claim_C4_zoom_factor_linear (zoom_speed length : ℚ)
    (h1 : 0 ≤ zoom_speed) (h2 : 0 < length) :
    zoom_factor zoom_speed length = 1 + zoom_speed * length := rfl

/-- Witness for C4: zoom speed 0.02 over 10 s gives final zoom 1.2. -/
theorem claim_C4_zoom_factor_linear_witness :
    0 ≤ (2/100 : ℚ) ∧ 0 < (10 : ℚ) ∧ zoom_factor (2/100) 10 = 12/10 :=
  ⟨by norm_num, by norm_num, by
    rw [claim_C4_zoom_factor_linear (2/100) 10 (by norm_num) (by norm_num)]
    norm_num⟩

/-- Claim C9: the downloaded image is removed exactly on success — after the
renderer invocation and as the last emitted effect before the return — and
on every failure path (download failure, unreadable image, renderer
failure) no removal is performed. -/
theorem claim_C9_cleanup_on_success_only (env : Env) (pyStr : ℚ → String)
    (length frame_rate zoom_speed : ℚ) (job_id : String) (pick : ℕ) :
    (∀ p, (process env pyStr length frame_rate zoom_speed job_id pick).1 =
        Except.ok p →
      ∃ cmd, (process env pyStr length frame_rate zoom_speed job_id pick).2 =
        [Event.downloaded env.image_path, Event.rendererInvoked cmd,
         Event.removed env.image_path]) ∧
    (∀ e, (process env pyStr length frame_rate zoom_speed job_id pick).1 =
        Except.error e →
      ∀ p, Event.removed p ∉
        (process env pyStr length frame_rate zoom_speed job_id pick).2) := by
  unfold process
  by_cases hd : env.download_ok = false
  · simp [hd]
  · by_cases hi : env.image_ok = false
    · simp [hd, hi]
    · by_cases hr : env.returncode ≠ 0
      · simp [hd, hi, hr]
      · simp [hd, hi, hr]

/-- Witness for C9: a fully successful run removes the image last; a
renderer failure leaves it in place. -/
theorem claim_C9_cleanup_on_success_only_witness :
    (process ⟨"/tmp", true, "/tmp/in.png", true, 1920, 1080, 0⟩ toString
        4 30 (3/100) "job" 0).1 = Except.ok "/tmp/job.mp4" ∧
    (∃ cmd, (process ⟨"/tmp", true, "/tmp/in.png", true, 1920, 1080, 0⟩
        toString 4 30 (3/100) "job" 0).2 =
      [Event.downloaded "/tmp/in.png", Event.rendererInvoked cmd,
       Event.removed "/tmp/in.png"]) ∧
    Event.removed "/tmp/in.png" ∉
      (process ⟨"/tmp", true, "/tmp/in.png", true, 1920, 1080, 1⟩ toString
        4 30 (3/100) "job" 0).2 :=
  ⟨by with_unfolding_all decide,
   (claim_C9_cleanup_on_success_only ⟨"/tmp", true, "/tmp/in.png", true,
      1920, 1080, 0⟩ toString 4 30 (3/100) "job" 0).1 "/tmp/job.mp4"
     (by with_unfolding_all decide),
   (claim_C9_cleanup_on_success_only ⟨"/tmp", true, "/tmp/in.png", true,
      1920, 1080, 1⟩ toString 4 30 (3/100) "job" 0).2
     "ffmpeg command failed" (by with_unfolding_all decide) "/tmp/in.png"⟩

/-- Claim C1, evaluated at the failing input `length = 0` (so
`total_frames = 0`): the code performs no parameter validation — it raises
no `InvalidParameters`-style error, builds the degenerate zero-frame plan,
invokes the renderer anyway, and (if the renderer exits 0) even returns
success. -/
theorem claim_C1_no_rejection_eval :
    total_frames 0 30 = 0 ∧
    (process ⟨"/tmp", true, "/tmp/in.png", true, 1920, 1080, 0⟩ toString
        0 30 (3/100) "job" 0).1 = Except.ok "/tmp/job.mp4" ∧
    ((process ⟨"/tmp", true, "/tmp/in.png", true, 1920, 1080, 0⟩ toString
        0 30 (3/100) "job" 0).2.any isRendererInvoke) = true :=
  ⟨by with_unfolding_all decide, by with_unfolding_all decide,
   by with_unfolding_all decide⟩

/-- Claim C10: with the source constants (border 20, intensity 8) both shake
offsets `border + intensity*sin(n*freq_x)` and `border + intensity*cos(n*freq_y)`
lie in `[border - intensity, border + intensity] = [12, 28]`, strictly
inside `(0, 2*border)`, for every frame index `n`. -/
theorem claim_C10_shake_offsets_bounded (n : ℝ) :
    ((SHAKE_BORDER : ℝ) - (SHAKE_INTENSITY : ℝ) = 12 ∧
     (SHAKE_BORDER : ℝ) + (SHAKE_INTENSITY : ℝ) = 28) ∧
    (12 ≤ (SHAKE_BORDER : ℝ) +
        (SHAKE_INTENSITY : ℝ) * Real.sin (n * (SHAKE_FREQUENCY_X : ℝ)) ∧
      (SHAKE_BORDER : ℝ) +
        (SHAKE_INTENSITY : ℝ) * Real.sin (n * (SHAKE_FREQUENCY_X : ℝ)) ≤ 28) ∧
    (12 ≤ (SHAKE_BORDER : ℝ) +
        (SHAKE_INTENSITY : ℝ) * Real.cos (n * (SHAKE_FREQUENCY_Y : ℝ)) ∧
      (SHAKE_BORDER : ℝ) +
        (SHAKE_INTENSITY : ℝ) * Real.cos (n * (SHAKE_FREQUENCY_Y : ℝ)) ≤ 28) ∧
    (0 < (SHAKE_BORDER : ℝ) +
        (SHAKE_INTENSITY : ℝ) * Real.sin (n * (SHAKE_FREQUENCY_X : ℝ)) ∧
      (SHAKE_BORDER : ℝ) +
        (SHAKE_INTENSITY : ℝ) * Real.sin (n * (SHAKE_FREQUENCY_X : ℝ)) <
        2 * (SHAKE_BORDER : ℝ)) ∧
    (0 < (SHAKE_BORDER : ℝ) +
        (SHAKE_INTENSITY : ℝ) * Real.cos (n * (SHAKE_FREQUENCY_Y : ℝ)) ∧
      (SHAKE_BORDER : ℝ) +
        (SHAKE_INTENSITY : ℝ) * Real.cos (n * (SHAKE_FREQUENCY_Y : ℝ)) <
        2 * (SHAKE_BORDER : ℝ)) := by
  have hs₁ := Real.neg_one_le_sin (n * (SHAKE_FREQUENCY_X : ℝ))
  have hs₂ := Real.sin_le_one (n * (SHAKE_FREQUENCY_X : ℝ))
  have hc₁ := Real.neg_one_le_cos (n * (SHAKE_FREQUENCY_Y : ℝ))
  have hc₂ := Real.cos_le_one (n * (SHAKE_FREQUENCY_Y : ℝ))
  simp only [SHAKE_BORDER, SHAKE_INTENSITY] at *
  push_cast at *
  refine ⟨⟨by norm_num, by norm_num⟩, ⟨by linarith, by linarith⟩,
    ⟨by linarith, by linarith⟩, ⟨by linarith, by linarith⟩,
    ⟨by linarith, by linarith⟩⟩

end ImageToVideo
